import Mathlib

/-!
Verification of the connection-acceptance and lifecycle manager of
`ldapserver` (`server.go`), as a shallow embedding in Lean.

The acceptor loop (`Server.serve`) interacts with its environment (the
listener and the shutdown channel) at exactly one point per iteration:
the `select` on `chDone` followed by `listener.Accept()`.  We model one
run of the loop as a function of a *script*, a list of per-iteration
environment events (`IterEvent`): either the `select` observed the closed
`chDone` channel, or the `default` branch was taken and `Accept` returned
a connection or an error.  Machine state that the loop mutates (the
ordinal counter `i`, the dispatched clients, the `wg.Add` count) is
threaded explicitly.

`Server.Stop` is modelled over the mutable runtime state (`ServerState`:
listener closed?, `chDone` closed?); closing an already-closed Go channel
panics, which we model with `Except` whose `error` carries the state at
the moment of the panic.

The per-worker `sync.WaitGroup` protocol (`wg.Add(1)` at dispatch,
`wg.Done()` when the worker returns, `wg.Wait()` in `Stop`) is modelled
as a labelled transition system `WGStep`.
-/

namespace LdapServer

/-- Network errors returned by `net.Listener.Accept` / the hook.
`errClosed` is the distinguished "use of closed network connection"
error produced once the listener has been closed. -/
inductive NetErr where
  | errClosed
  | other (code : Nat)
deriving DecidableEq, Repr

/-- A `net.Conn`: connection identity, the instant `Accept` returned it,
and the deadline state set by `SetReadDeadline` / `SetWriteDeadline`
(absent until set). -/
structure Conn where
  id : Nat
  acceptedAt : Nat
  readDeadline : Option Nat := none
  writeDeadline : Option Nat := none
deriving DecidableEq, Repr

/-- `net.Conn.SetReadDeadline`: stores an absolute read deadline. -/
def Conn.setReadDeadline (c : Conn) (t : Nat) : Conn :=
  { c with readDeadline := some t }

/-- `net.Conn.SetWriteDeadline`: stores an absolute write deadline. -/
def Conn.setWriteDeadline (c : Conn) (t : Nat) : Conn :=
  { c with writeDeadline := some t }

/-- The `client` struct (constructed by `Server.newClient`).  The Go
struct also holds `srv` (a back-reference to the shared `Server`
configuration) and `br`/`bw` (`bufio` buffers wrapping `rwc`); they carry
no state of their own that the claims mention, so only the connection and
the ordinal are modelled.  `Numero` starts at Go's zero value. -/
structure client where
  rwc : Conn
  Numero : Nat := 0
deriving DecidableEq, Repr

/-- The `Server` configuration fields read by the acceptor loop.
`Handler` is opaque (an identifier); `OnNewConnection` is the optional
new-connection hook (`func(net.Conn) error`, modelled as returning
`Option NetErr`).  Timeouts are durations; Go's zero value means unset. -/
structure Server where
  Handler : Option Nat := none
  ReadTimeout : Nat := 0
  WriteTimeout : Nat := 0
  OnNewConnection : Option (Conn → Option NetErr) := none

/-- `NewServer`: all configuration at its zero value, fresh (open)
`chDone` channel (see `ServerState` for the runtime part). -/
def NewServer : Server := {}

/-- `Server.Handle`: registers the handler; panics (second component
`some msg`) if one is already registered, leaving the server unchanged. -/
def Server.Handle (s : Server) (h : Nat) : Server × Option String :=
  if s.Handler.isSome then
    (s, some "LDAP: multiple Handler registrations")
  else
    ({ s with Handler := some h }, none)

/-- `Server.newClient`: builds a `client` holding the connection (plus
buffers and the server back-reference, not modelled) and returns a nil
error, unconditionally. -/
def Server.newClient (s : Server) (rwc : Conn) : client × Option NetErr :=
  ({ rwc := rwc }, none)

/-- One iteration's environment event for the acceptor loop:
`signalled` = the `select` took the `<-s.chDone` case (the channel was
closed, so the `default` branch cannot be taken);
`accepted cid t` = `default` was taken and `Accept` returned connection
`cid` at time `t`;
`acceptFailed e` = `default` was taken and `Accept` returned error `e`. -/
inductive IterEvent where
  | signalled
  | accepted (cid : Nat) (t : Nat)
  | acceptFailed (e : NetErr)
deriving DecidableEq, Repr

/-- How one run of `Server.serve` ended: still blocked in the loop
(script exhausted), panicked, or returned (with a nil or non-nil error). -/
inductive Outcome where
  | running
  | panicked (msg : String)
  | returned (err : Option NetErr)
deriving DecidableEq, Repr

/-- Observable result of one run of the acceptor loop: how it ended, the
clients dispatched to workers (`go cli.serve()`), in dispatch order, and
the number of `s.wg.Add(1)` calls made. -/
structure LoopResult where
  outcome : Outcome
  clients : List client
  wgAdds : Nat
deriving DecidableEq, Repr

/-- The `for` loop body of `Server.serve`, iterated over the script.
Transcribed from `server.go` lines 70-100: `select` on `chDone` (return
nil), `Accept` (return any error), deadline application when the timeout
is non-zero, `newClient` (on error: `continue`), then
`i = i + 1; cli.Numero = i; s.wg.Add(1); go cli.serve()`. -/
def serveLoop (s : Server) (i : Nat) : List IterEvent → LoopResult
  | [] => { outcome := .running, clients := [], wgAdds := 0 }
  | IterEvent.signalled :: _ =>
      { outcome := .returned none, clients := [], wgAdds := 0 }
  | IterEvent.acceptFailed e :: _ =>
      { outcome := .returned (some e), clients := [], wgAdds := 0 }
  | IterEvent.accepted cid t :: rest =>
      let rw0 : Conn := { id := cid, acceptedAt := t }
      let rw1 := if s.ReadTimeout ≠ 0 then rw0.setReadDeadline (t + s.ReadTimeout) else rw0
      let rw2 := if s.WriteTimeout ≠ 0 then rw1.setWriteDeadline (t + s.WriteTimeout) else rw1
      match s.newClient rw2 with
      | (_, some _) => serveLoop s i rest
      | (cli0, none) =>
          let cli := { cli0 with Numero := i + 1 }
          let r := serveLoop s (i + 1) rest
          { outcome := r.outcome, clients := cli :: r.clients, wgAdds := r.wgAdds + 1 }

/-- `Server.serve`: panics before the loop when no `Handler` is
registered (`Logger.Panicln`), otherwise runs the loop with `i = 0`. -/
def serveRun (s : Server) (script : List IterEvent) : LoopResult :=
  if s.Handler.isNone then
    { outcome := .panicked "No LDAP Request Handler defined", clients := [], wgAdds := 0 }
  else
    serveLoop s 0 script

/-- A bound listener, possibly wrapped by `tls.NewListener`. -/
structure Listener where
  id : Nat
  tls : Bool := false
deriving DecidableEq, Repr

/-- `tls.NewListener`: upgrades the listener; accepted connections look
the same to the loop (the handshake is transparent). -/
def tlsNewListener (l : Listener) : Listener := { l with tls := true }

/-- `Server.Serve`: stores the listener and delegates to `serve`.  The
listener's accept behaviour is abstracted by the script. -/
def Server.Serve (s : Server) (_l : Listener) (script : List IterEvent) : LoopResult :=
  serveRun s script

/-- `Server.ServeTLS`: wraps the listener with `tls.NewListener` and
delegates to `serve`; identical accept contract from the loop's view. -/
def Server.ServeTLS (s : Server) (l : Listener) (script : List IterEvent) : LoopResult :=
  let _ := tlsNewListener l
  serveRun s script

/-- The mutable runtime state `Server.Stop` touches: whether the
listener has been closed and whether the `chDone` channel has been
closed. -/
structure ServerState where
  listenerClosed : Bool := false
  chDoneClosed : Bool := false
deriving DecidableEq, Repr

/-- `Server.Stop`: `_ = s.listener.Close()` (idempotent, error ignored),
then `close(s.chDone)`.  Closing an already-closed Go channel panics:
the `error` case carries the state at the moment of the panic (the
listener close has already happened). -/
def Stop (st : ServerState) : Except ServerState ServerState :=
  let st1 := { st with listenerClosed := true }
  if st1.chDoneClosed then
    Except.error st1
  else
    Except.ok { st1 with chDoneClosed := true }

/-- State of the `sync.WaitGroup` protocol: the set of workers for which
the acceptor did `s.wg.Add(1)`, the set that have since done `wg.Done()`,
and whether `s.wg.Wait()` in `Stop` has returned. -/
structure WGState where
  added : Finset Nat
  finished : Finset Nat
  waitReturned : Bool
deriving DecidableEq

def WGInit : WGState := { added := ∅, finished := ∅, waitReturned := false }

/-- Modelled from the spec: the worker body `client.serve` is not among
the provided sources (only its call site `go cli.serve()` is); per the
spec, "the worker decrements the live-worker counter as its last act",
and `sync.WaitGroup.Wait` "blocks the caller until the live-worker
counter reaches zero".
Transitions: `add` = `s.wg.Add(1)` for a freshly dispatched worker;
`finish` = that worker's final `wg.Done()` (each dispatched worker
finishes at most once); `wait` = `s.wg.Wait()` returning, enabled only
when the counter (adds minus dones) is zero, and touching no worker. -/
inductive WGStep : WGState → WGState → Prop
  | add (s : WGState) (w : Nat) (h : w ∉ s.added) :
      WGStep s { s with added := insert w s.added }
  | finish (s : WGState) (w : Nat) (h1 : w ∈ s.added) (h2 : w ∉ s.finished) :
      WGStep s { s with finished := insert w s.finished }
  | wait (s : WGState) (h : s.added.card - s.finished.card = 0) :
      WGStep s { s with waitReturned := true }

/-- States reachable from the fresh wait group. -/
def WGReachable (s : WGState) : Prop :=
  Relation.ReflTransGen WGStep WGInit s

/-- A server with only a handler registered (used as concrete input). -/
def srvH : Server := { Handler := some 1 }

/-- A hook that rejects every connection (used as concrete input). -/
def hookRejectAll : Conn → Option NetErr := fun _ => some (NetErr.other 1)

/-- A server configured with a rejecting new-connection hook. -/
def srvHook : Server := { Handler := some 1, OnNewConnection := some hookRejectAll }

/-- A server with a handler and a 5-unit read timeout (concrete input). -/
def srvRT : Server := { Handler := some 1, ReadTimeout := 5 }

/-- The client dispatched by `srvRT` for connection 3 accepted at
instant 10 (concrete input). -/
def cliRT : client :=
  { rwc := { id := 3, acceptedAt := 10, readDeadline := some 15, writeDeadline := none },
    Numero := 1 }

/-- A wait-group state with one worker dispatched and finished (concrete
input). -/
def wgS : WGState := { added := insert 0 ∅, finished := insert 0 ∅, waitReturned := false }

/-- `wgS` after `wg.Wait` returns (concrete input). -/
def wgS' : WGState := { added := insert 0 ∅, finished := insert 0 ∅, waitReturned := true }

/-- C6: starting a Server (`Serve` / `ServeTLS`) with no Handler
registered panics inside `serve` before the accept loop runs: no
connection is ever accepted (no clients, no `wg.Add`), whatever the
environment script would have offered. -/
theorem serve_no_handler_panics (s : Server) (l : Listener) (script : List IterEvent)
    (h : s.Handler = none) :
    s.Serve l script
        = { outcome := .panicked "No LDAP Request Handler defined", clients := [], wgAdds := 0 }
    ∧ s.ServeTLS l script
        = { outcome := .panicked "No LDAP Request Handler defined", clients := [], wgAdds := 0 } := by
  constructor <;> simp [Server.Serve, Server.ServeTLS, serveRun, h]

/-- C6 witness: `NewServer` has no handler, and both entry points refuse
to serve. -/
theorem serve_no_handler_panics_witness :
    NewServer.Serve { id := 0 } [IterEvent.accepted 5 0]
        = { outcome := .panicked "No LDAP Request Handler defined", clients := [], wgAdds := 0 }
    ∧ NewServer.ServeTLS { id := 0 } [IterEvent.accepted 5 0]
        = { outcome := .panicked "No LDAP Request Handler defined", clients := [], wgAdds := 0 } :=
  serve_no_handler_panics NewServer { id := 0 } [IterEvent.accepted 5 0] rfl

/-- C7: calling `Handle` on a server that already has a registered
handler panics ("LDAP: multiple Handler registrations") — a
configuration-time failure, before any serving — and the originally
registered handler is left unchanged (the panic fires before the
assignment). -/
theorem handle_second_registration_fails (s : Server) (h0 hNew : Nat)
    (h : s.Handler = some h0) :
    (s.Handle hNew).2 = some "LDAP: multiple Handler registrations"
    ∧ (s.Handle hNew).1.Handler = some h0 := by
  constructor <;> simp [Server.Handle, h]

/-- C7 witness: a second registration on `srvH` fails and keeps the
original handler. -/
theorem handle_second_registration_fails_witness :
    (srvH.Handle 2).2 = some "LDAP: multiple Handler registrations"
    ∧ (srvH.Handle 2).1.Handler = some 1 :=
  handle_second_registration_fails srvH 1 2 rfl

/-- C9 counterexample: `Stop` is not guarded against double invocation.
The first call succeeds; the second call reaches `close(s.chDone)` with
the channel already closed and panics (the `error` case), so calling
`Stop` twice does abort the process, refuting the claim. -/
theorem double_stop_panics_cex :
    Stop { listenerClosed := false, chDoneClosed := false }
        = Except.ok { listenerClosed := true, chDoneClosed := true }
    ∧ Stop { listenerClosed := true, chDoneClosed := true }
        = Except.error { listenerClosed := true, chDoneClosed := true } := by
  constructor <;> rfl

/-- C9 (amended): `Stop` is safe to call at most once per Server
lifetime: any state a successful `Stop` produces has `chDone` closed, so
a second `Stop` on that state panics when re-closing the channel (the
listener re-close itself is ignored and harmless). -/
theorem stop_at_most_once (st st' : ServerState) (h : Stop st = Except.ok st') :
    Stop st' = Except.error st' := by
  unfold Stop at h ⊢
  by_cases hc : st.chDoneClosed = true <;> simp [hc] at h <;> subst h <;> rfl

/-- C9 witness: after a first successful `Stop`, the second panics. -/
theorem stop_at_most_once_witness :
    Stop { listenerClosed := true, chDoneClosed := true }
        = Except.error { listenerClosed := true, chDoneClosed := true } :=
  stop_at_most_once { listenerClosed := false, chDoneClosed := false }
    { listenerClosed := true, chDoneClosed := true } rfl

/-- C2: contrary to the field's own documentation ("OnNewConnection, if
non-nil, is called on new connections. If it returns non-nil, the
connection is closed"), `serve` never invokes the hook: with a hook that
rejects every connection configured, an accepted connection is still
dispatched to a worker (`go cli.serve()`, i.e. it reaches the Handler),
is assigned ordinal 1, and is counted in the wait group. -/
theorem hook_never_invoked_eval :
    (serveRun srvHook [IterEvent.accepted 7 0]).clients
        = [{ rwc := { id := 7, acceptedAt := 0 }, Numero := 1 }]
    ∧ (serveRun srvHook [IterEvent.accepted 7 0]).wgAdds = 1 := by
  constructor <;> rfl

/-- Helper: the loop does `s.wg.Add(1)` exactly once per dispatched
client. -/
theorem serveLoop_wgAdds_eq (s : Server) :
    ∀ (evs : List IterEvent) (i : Nat),
      (serveLoop s i evs).wgAdds = (serveLoop s i evs).clients.length := by
  intro evs
  induction evs with
  | nil => intro i; rfl
  | cons e rest ih =>
    intro i
    cases e with
    | signalled => rfl
    | acceptFailed e => rfl
    | accepted cid t => simp [serveLoop, Server.newClient, ih]

/-- Helper: starting the loop with counter value `i`, the dispatched
clients carry ordinals `i+1, i+2, ...` in dispatch order. -/
theorem serveLoop_numero (s : Server) :
    ∀ (evs : List IterEvent) (i : Nat),
      (serveLoop s i evs).clients.map client.Numero
        = List.range' (i + 1) (serveLoop s i evs).clients.length := by
  intro evs
  induction evs with
  | nil => intro i; rfl
  | cons e rest ih =>
    intro i
    cases e with
    | signalled => rfl
    | acceptFailed e => rfl
    | accepted cid t => simp [serveLoop, Server.newClient, ih, List.range'_succ]

/-- Helper: every dispatched client's connection carries exactly the
deadlines computed at its acceptance instant. -/
theorem serveLoop_deadlines (s : Server) :
    ∀ (evs : List IterEvent) (i : Nat) (c : client),
      c ∈ (serveLoop s i evs).clients →
      c.rwc.readDeadline
          = (if s.ReadTimeout = 0 then none else some (c.rwc.acceptedAt + s.ReadTimeout))
      ∧ c.rwc.writeDeadline
          = (if s.WriteTimeout = 0 then none else some (c.rwc.acceptedAt + s.WriteTimeout)) := by
  intro evs
  induction evs with
  | nil => intro i c hc; simp [serveLoop] at hc
  | cons e rest ih =>
    intro i c hc
    cases e with
    | signalled => simp [serveLoop] at hc
    | acceptFailed e => simp [serveLoop] at hc
    | accepted cid t =>
      simp only [serveLoop, Server.newClient, List.mem_cons] at hc
      rcases hc with hc | hc
      · subst hc
        by_cases hr : s.ReadTimeout = 0 <;> by_cases hw : s.WriteTimeout = 0 <;>
          simp [hr, hw, Conn.setReadDeadline, Conn.setWriteDeadline]
      · exact ih (i + 1) c hc

/-- Helper: a script of successful accepts dispatches one client per
accepted connection. -/
theorem serveLoop_accepted_all (s : Server) :
    ∀ (evs : List (Nat × Nat)) (i : Nat),
      (serveLoop s i (evs.map (fun p => IterEvent.accepted p.1 p.2))).clients.length
        = evs.length := by
  intro evs
  induction evs with
  | nil => intro i; rfl
  | cons p rest ih => intro i; simp [serveLoop, Server.newClient, ih]

/-- Helper: whatever the error, an `Accept` failure after a run of
successful accepts makes the loop return that error. -/
theorem serveLoop_acceptFailed (s : Server) :
    ∀ (evs : List (Nat × Nat)) (i : Nat) (e : NetErr) (rest : List IterEvent),
      (serveLoop s i
          (evs.map (fun p => IterEvent.accepted p.1 p.2) ++ IterEvent.acceptFailed e :: rest)).outcome
        = Outcome.returned (some e) := by
  intro evs
  induction evs with
  | nil => intro i e rest; rfl
  | cons p rest' ih => intro i e rest; simp [serveLoop, Server.newClient, ih]

/-- Helper: the loop never runs past an observation of the shutdown
signal: everything after the first `signalled` event is ignored. -/
theorem serveLoop_ignores_after_signal (s : Server) :
    ∀ (evs : List IterEvent) (i : Nat) (rest : List IterEvent),
      serveLoop s i (evs ++ IterEvent.signalled :: rest)
        = serveLoop s i (evs ++ [IterEvent.signalled]) := by
  intro evs
  induction evs with
  | nil => intro i rest; rfl
  | cons e evs ih =>
    intro i rest
    cases e with
    | signalled => rfl
    | acceptFailed e => rfl
    | accepted cid t => simp [serveLoop, Server.newClient, ih]

/-- C4: over one run of the acceptor loop the ordinal identifiers of the
dispatched clients are exactly `1, 2, ...` in dispatch (= acceptance)
order: they start at 1, are strictly increasing and are never reused. -/
theorem numeros_strictly_increasing_from_one (s : Server) (script : List IterEvent) :
    (serveRun s script).clients.map client.Numero
      = List.range' 1 (serveRun s script).clients.length := by
  unfold serveRun
  by_cases hh : s.Handler.isNone <;> simp [hh]
  exact serveLoop_numero s script 0

/-- C8: every dispatched client's connection carries the read (resp.
write) deadline computed once at acceptance time as an absolute instant,
`acceptedAt + timeout`, and no deadline at all when the configured
timeout is zero. -/
theorem deadlines_absolute_from_accept (s : Server) (script : List IterEvent) (c : client)
    (h : c ∈ (serveRun s script).clients) :
    c.rwc.readDeadline
        = (if s.ReadTimeout = 0 then none else some (c.rwc.acceptedAt + s.ReadTimeout))
    ∧ c.rwc.writeDeadline
        = (if s.WriteTimeout = 0 then none else some (c.rwc.acceptedAt + s.WriteTimeout)) := by
  unfold serveRun at h
  by_cases hh : s.Handler.isNone <;> simp [hh] at h
  exact serveLoop_deadlines s script 0 c h

/-- C8 witness: with read timeout 5 and write timeout 0, the client
accepted at instant 10 carries read deadline 15 and no write deadline. -/
theorem deadlines_absolute_from_accept_witness :
    cliRT.rwc.readDeadline
        = (if srvRT.ReadTimeout = 0 then none else some (cliRT.rwc.acceptedAt + srvRT.ReadTimeout))
    ∧ cliRT.rwc.writeDeadline
        = (if srvRT.WriteTimeout = 0 then none else some (cliRT.rwc.acceptedAt + srvRT.WriteTimeout)) :=
  deadlines_absolute_from_accept srvRT [IterEvent.accepted 3 10] cliRT (by decide)

/-- C10: `newClient` returns a nil error for every connection, so the
`continue` branch of the loop is dead: the loop does one `wg.Add(1)` per
dispatched client, and on a script of successful accepts every accepted
connection is dispatched (one client each, each carrying an ordinal by
`numeros_strictly_increasing_from_one`). -/
theorem newClient_never_fails_all_dispatched :
    (∀ (s : Server) (rwc : Conn), (s.newClient rwc).2 = none)
    ∧ (∀ (s : Server) (script : List IterEvent),
        (serveRun s script).wgAdds = (serveRun s script).clients.length)
    ∧ (∀ (s : Server) (evs : List (Nat × Nat)), s.Handler.isSome = true →
        (serveRun s (evs.map (fun p => IterEvent.accepted p.1 p.2))).clients.length
          = evs.length) := by
  refine ⟨fun s rwc => rfl, fun s script => ?_, fun s evs h => ?_⟩
  · unfold serveRun
    by_cases hh : s.Handler.isNone <;> simp [hh]
    exact serveLoop_wgAdds_eq s script 0
  · unfold serveRun
    rcases hs : s.Handler with _ | v
    · rw [hs] at h; cases h
    · simpa using serveLoop_accepted_all s evs 0

/-- C10 witness: with a handler registered and one successful accept,
exactly one client is dispatched. -/
theorem newClient_never_fails_all_dispatched_witness :
    (serveRun srvH ([((5 : Nat), (0 : Nat))].map (fun p => IterEvent.accepted p.1 p.2))).clients.length
      = [((5 : Nat), (0 : Nat))].length :=
  newClient_never_fails_all_dispatched.2.2 srvH [(5, 0)] rfl

/-- Helper: a nil return can only come from the `select` on `chDone`:
if a run of the loop returned nil, its script contains an observation of
the shutdown signal. -/
theorem serveLoop_returns_nil_only_on_signal (s : Server) :
    ∀ (evs : List IterEvent) (i : Nat),
      (serveLoop s i evs).outcome = Outcome.returned none → IterEvent.signalled ∈ evs := by
  intro evs
  induction evs with
  | nil => intro i h; simp [serveLoop] at h
  | cons e rest ih =>
    intro i h
    cases e with
    | signalled => exact List.mem_cons_self _ _
    | acceptFailed e => simp [serveLoop] at h
    | accepted cid t =>
      simp only [serveLoop, Server.newClient] at h
      exact List.mem_cons_of_mem _ (ih (i + 1) h)

/-- C1 (amended): every `Accept` failure — including the closed-listener
error produced when `Stop` closes the transport — is returned to the
loop's caller as a non-nil error; and the loop returns nil only upon
observing the shutdown signal at the top of an iteration, before calling
`Accept`: a run whose outcome is a nil return contains a `signalled`
observation in its script. -/
theorem accept_error_propagates :
    (∀ (s : Server) (evs : List (Nat × Nat)) (e : NetErr) (rest : List IterEvent),
        s.Handler.isSome = true →
        (serveRun s
            (evs.map (fun p => IterEvent.accepted p.1 p.2)
              ++ IterEvent.acceptFailed e :: rest)).outcome
          = Outcome.returned (some e))
    ∧ (∀ (s : Server) (script : List IterEvent),
        (serveRun s script).outcome = Outcome.returned none →
        IterEvent.signalled ∈ script) := by
  constructor
  · intro s evs e rest h
    unfold serveRun
    rcases hs : s.Handler with _ | v
    · rw [hs] at h; cases h
    · simpa using serveLoop_acceptFailed s evs 0 e rest
  · intro s script h
    unfold serveRun at h
    by_cases hh : s.Handler.isNone <;> simp [hh] at h
    exact serveLoop_returns_nil_only_on_signal s script 0 h

/-- C1 witness: a non-closed accept error after zero accepts is returned
as-is, and a run that returned nil had observed the shutdown signal. -/
theorem accept_error_propagates_witness :
    (serveRun srvH [IterEvent.acceptFailed (NetErr.other 3)]).outcome
      = Outcome.returned (some (NetErr.other 3))
    ∧ IterEvent.signalled ∈ [IterEvent.signalled] :=
  ⟨accept_error_propagates.1 srvH [] (NetErr.other 3) [] rfl,
   accept_error_propagates.2 srvH [IterEvent.signalled] rfl⟩

/-- C5: `Stop` closes the listener first and then closes `chDone`
exactly once: from an open-channel state it yields the fully-closed
state, from a closed-channel state it panics — with the listener close
already performed — so the signal transitions unset → set at most once
and never back; and once the loop observes the signal it accepts nothing
further (every event after the first `signalled` is ignored). -/
theorem stop_then_signal_once_loop_stops :
    (∀ st : ServerState, st.chDoneClosed = false →
        Stop st = Except.ok { listenerClosed := true, chDoneClosed := true })
    ∧ (∀ st : ServerState, st.chDoneClosed = true →
        Stop st = Except.error { st with listenerClosed := true })
    ∧ (∀ st st' : ServerState, Stop st = Except.ok st' → st'.chDoneClosed = true)
    ∧ (∀ (s : Server) (i : Nat) (evs rest : List IterEvent),
        serveLoop s i (evs ++ IterEvent.signalled :: rest)
          = serveLoop s i (evs ++ [IterEvent.signalled])) := by
  refine ⟨fun st h => ?_, fun st h => ?_, fun st st' h => ?_, fun s i evs rest => ?_⟩
  · simp [Stop, h]
  · simp [Stop, h]
  · unfold Stop at h
    by_cases hc : st.chDoneClosed = true <;> simp [hc] at h
    subst h; rfl
  · exact serveLoop_ignores_after_signal s evs i rest

/-- C5 witness: stopping a freshly serving server closes the listener
and sets the shutdown signal. -/
theorem stop_then_signal_once_loop_stops_witness :
    Stop { listenerClosed := false, chDoneClosed := false }
      = Except.ok { listenerClosed := true, chDoneClosed := true } :=
  stop_then_signal_once_loop_stops.1 { listenerClosed := false, chDoneClosed := false } rfl

/-- Helper invariant: a worker only ever finishes after having been
added, so the set of finished workers stays inside the set of added
workers (the counter never goes negative). -/
theorem wg_finished_subset_added : ∀ s : WGState, WGReachable s → s.finished ⊆ s.added := by
  intro s h
  unfold WGReachable at h
  induction h with
  | refl => simp [WGInit]
  | tail hab step ih =>
    cases step with
    | add w hw => exact ih.trans (Finset.subset_insert _ _)
    | finish w h1 h2 => exact Finset.insert_subset h1 ih
    | wait hc => exact ih

/-- C3: in the wait-group protocol the finished workers are always a
subset of the added ones (counter never negative), and the only
transition that makes `wg.Wait` return fires from a state where the
counter is zero — i.e. every worker whose `wg.Add(1)` had happened has
already done its final `wg.Done()` — and that transition changes no
worker state (it cancels nothing, it only waits). -/
theorem wg_wait_drains :
    (∀ s : WGState, WGReachable s → s.finished ⊆ s.added)
    ∧ (∀ s s' : WGState, WGReachable s → WGStep s s' →
        s.waitReturned = false → s'.waitReturned = true →
        s.added = s.finished ∧ s'.added = s.added ∧ s'.finished = s.finished) := by
  refine ⟨wg_finished_subset_added, fun s s' hr hstep hf ht => ?_⟩
  cases hstep with
  | add w hw => simp at ht; rw [hf] at ht; cases ht
  | finish w h1 h2 => simp at ht; rw [hf] at ht; cases ht
  | wait hc =>
    have hsub : s.finished ⊆ s.added := wg_finished_subset_added s hr
    have hle : s.added.card ≤ s.finished.card := Nat.sub_eq_zero_iff_le.mp hc
    have heq : s.finished = s.added := Finset.eq_of_subset_of_card_le hsub hle
    exact ⟨heq.symm, rfl, rfl⟩

/-- C3 witness: after dispatching worker 0 and letting it finish,
`wg.Wait` may return, and at that point every added worker has finished
and the wait changed no worker state. -/
theorem wg_wait_drains_witness :
    wgS.added = wgS.finished ∧ wgS'.added = wgS.added ∧ wgS'.finished = wgS.finished :=
  wg_wait_drains.2 wgS wgS'
    (Relation.ReflTransGen.tail
      (Relation.ReflTransGen.tail Relation.ReflTransGen.refl
        (WGStep.add WGInit 0 (by simp [WGInit])))
      (WGStep.finish { added := insert 0 ∅, finished := ∅, waitReturned := false } 0
        (by simp) (by simp)))
    (WGStep.wait wgS (by simp [wgS]))
    rfl rfl

/-- C1 counterexample: with a handler registered, an `Accept` failure
with the closed-listener error (the one shutdown produces) makes `serve`
return that error, not nil — the loop body is `if err != nil { return err }`
with no closed-transport case. -/
theorem accept_closed_returns_error_cex :
    (serveRun srvH [IterEvent.acceptFailed NetErr.errClosed]).outcome
        = Outcome.returned (some NetErr.errClosed)
    ∧ (serveRun srvH [IterEvent.acceptFailed NetErr.errClosed]).outcome
        ≠ Outcome.returned none := by
  constructor
  · rfl
  · intro h
    simp [serveRun, srvH, serveLoop] at h

end LdapServer
